import Mathlib

/-!
Verification development for the dCache exporter's extraction engine
(`dcache_exporter.py`): a shallow embedding of the XML snapshot tree, the
transform table, the category filters, the recursive tree walker and the
metric registry, together with theorems about the claims of the spec.

Label values are modelled as `Option String` because the Python code can
attach `None` (a missing attribute looked up via `dict.get`) as a label
value.  Numeric metric values are modelled as rationals `ℚ`, idealising
Python's float arithmetic (the only scaling in the program is an exact
division by 1000).
-/

/-- The character `\x7b` (opening brace), used in namespaced XML tags. -/
def obChar : Char := Char.ofNat 123

/-- The character `\x7d` (closing brace), used in namespaced XML tags. -/
def cbChar : Char := Char.ofNat 125

/-- Split a character list at the LAST occurrence of `c`: returns
(prefix including that occurrence, suffix after it); `none` when `c`
does not occur.  Models the greedy regex `.*` used by the source's
`get_namespace` / `get_short_tag`. -/
def splitAtLast (c : Char) : List Char → Option (List Char × List Char)
  | [] => none
  | a :: rest =>
    match splitAtLast c rest with
    | some (pre, suf) => some (a :: pre, suf)
    | none => if a = c then some ([a], rest) else none

/-- Embedding of `get_namespace`: `re.match('\x7b.*\x7d', tag)`; the match is
anchored at the start and the `.*` is greedy, so the result is the prefix of
the tag through the last closing brace, provided the tag starts with an
opening brace; `none` models the `AttributeError` raised on `m.group(0)`
when there is no match. -/
def get_namespace (tag : String) : Option String :=
  match tag.toList with
  | [] => none
  | a :: rest =>
    if a = obChar then
      match splitAtLast cbChar (a :: rest) with
      | some (pre, _) => some (String.mk pre)
      | none => none
    else none

/-- Embedding of `get_short_tag`: `re.match('(\x7b.*\x7d)?(.*)', tag)` and
take group 2 — everything after the last closing brace when the tag starts
with an opening brace and contains a closing one, the whole tag otherwise. -/
def get_short_tag (tag : String) : String :=
  match tag.toList with
  | [] => tag
  | a :: rest =>
    if a = obChar then
      match splitAtLast cbChar (a :: rest) with
      | some (_, suf) => String.mk suf
      | none => tag
    else tag

/-- `DOOR_METRICS` from the source. -/
def DOOR_METRICS : List String := ["load"]

/-- `DOMAIN_METRICS` from the source. -/
def DOMAIN_METRICS : List String := ["event_queue_size", "thread_count"]

/-- `POOL_METRICS` from the source. -/
def POOL_METRICS : List String :=
  ["heartbeat_seconds", "enabled", "read_only",
   "active", "queued",
   "total_bytes", "precious_bytes", "removable_bytes", "used_bytes",
   "free_bytes", "gap_bytes", "LRU_seconds", "break_even"]

/-- `POOLGROUP_METRICS` from the source. -/
def POOLGROUP_METRICS : List String :=
  ["resilient",
   "total_bytes", "precious_bytes", "removable_bytes", "used_bytes", "free_bytes"]

/-- `LINK_METRICS` from the source. -/
def LINK_METRICS : List String :=
  ["total_bytes", "precious_bytes", "removable_bytes", "used_bytes", "free_bytes",
   "cache", "read", "write", "p2p"]

/-- `LINKGROUP_METRICS` from the source. -/
def LINKGROUP_METRICS : List String :=
  ["total_bytes", "reserved_bytes", "available_bytes", "used_bytes", "free_bytes"]

/-- `METRIC_GROUPS` from the source. -/
def METRIC_GROUPS : List (List String) :=
  [DOOR_METRICS, DOMAIN_METRICS, POOL_METRICS,
   POOLGROUP_METRICS, LINK_METRICS, LINKGROUP_METRICS]

/-- Python's `m[:-6]`, dropping the 6-character suffix `_bytes`. -/
def dropLast6 (m : String) : String :=
  String.mk (m.toList.take (m.toList.length - 6))

/-- Python's `s.endswith(t)`, computed on the character lists. -/
def strEndsWith (s t : String) : Bool :=
  t.toList.isSuffixOf s.toList

/-- `BYTES_METRICS` from the source:
`set(m[:-6] for g in METRIC_GROUPS for m in g if m.endswith('_bytes'))`,
modelled as a list used only through membership (set semantics). -/
def BYTES_METRICS : List String :=
  (METRIC_GROUPS.flatten).filterMap
    (fun m => if strEndsWith m "_bytes" then some (dropLast6 m) else none)

/-- Python's `name.replace('-', '_')` for the single-character arguments
used by the source: a character-wise map. -/
def dash_to_underscore (s : String) : String :=
  String.mk (s.toList.map (fun c => if c = '-' then '_' else c))

/-- Embedding of `DcacheCollector._metric_transform`: maps a raw field name
to the output metric-name fragment and the numeric scale function, checking
the rules in the source's order. -/
def DcacheCollector.metric_transform (name : String) : String × (ℚ → ℚ) :=
  if name ∈ BYTES_METRICS then (name ++ "_bytes", fun x => x)
  else if name = "last-heartbeat" then ("heartbeat_seconds", fun x => x / 1000)
  else (dash_to_underscore name, fun x => x)

/-- The XML snapshot tree (`xml.etree.ElementTree` elements): tag (with
namespace), ordered attribute items, optional leaf text, ordered children. -/
inductive XmlNode where
  | mk (tag : String) (attrib : List (String × String)) (text : Option String)
       (children : List XmlNode)

/-- The node's tag. -/
def XmlNode.tag : XmlNode → String
  | .mk t _ _ _ => t

/-- The node's attribute items, in order. -/
def XmlNode.attrib : XmlNode → List (String × String)
  | .mk _ a _ _ => a

/-- The node's leaf text (`None` modelled as `none`). -/
def XmlNode.text : XmlNode → Option String
  | .mk _ _ tx _ => tx

/-- The node's children, in order. -/
def XmlNode.children : XmlNode → List XmlNode
  | .mk _ _ _ c => c

/-- `attrib.get(k)` on a raw attribute list: first matching key, `none`
when absent (Python's `dict.get` default). -/
def attribGetA (attrib : List (String × String)) (k : String) : Option String :=
  (attrib.find? (fun p => p.1 = k)).map (fun p => p.2)

/-- `element.attrib.get(k)` / `element.get(k)`. -/
def attribGet (el : XmlNode) (k : String) : Option String :=
  attribGetA el.attrib k

/-- A label: name and value.  The value is `Option String` because the
Python code can append `None` (a missing attribute) as a label value. -/
abbrev Label := String × Option String

/-- Embedding of the `ExportTag` configuration record.  `pfx`, `incl` and
`excl` stand for the source's `prefix`, `include` and `exclude` fields
(which are Lean keywords).  The optional init/filter hooks keep their
function-valued form. -/
structure ExportTag where
  name : String
  pfx : String
  default : Option Bool
  incl : List String
  excl : List String
  init_func : Option (XmlNode → List Label)
  filter_func : Option (List Label → List Label → Bool)

/-- `ExportTag.collect_init`: compute the category's auxiliary `data` from
the member element when an init function is configured; empty otherwise
(categories without an init function never read `data`). -/
def ExportTag.collect_init (e : ExportTag) (element : XmlNode) : List Label :=
  match e.init_func with
  | some f => f element
  | none => []

/-- Embedding of `ExportTag.collect_metric`, the category filter: `None`
default always emits; otherwise include/exclude/default give the tentative
answer, and a configured filter function is consulted only when the
tentative answer is true. -/
def ExportTag.collect_metric (e : ExportTag) (data : List Label) (name : String)
    (labels : List Label) : Bool :=
  match e.default with
  | none => true
  | some d =>
    let ok := if name ∈ e.incl then true else if name ∈ e.excl then false else d
    match e.filter_func with
    | some f => if ok then f data labels else ok
    | none => ok

/-- Embedding of `ExportTag.DomainInit`: walk the member's
`routing`/`local`/`cellref` sub-path and collect every referenced cell name
as a `("cell_name", name)` pair. -/
def ExportTag.DomainInit (element : XmlNode) : List Label :=
  element.children.flatMap (fun routing =>
    if get_short_tag routing.tag = "routing" then
      routing.children.flatMap (fun route =>
        if get_short_tag route.tag = "local" then
          route.children.flatMap (fun cell =>
            if get_short_tag cell.tag = "cellref" then
              [("cell_name", attribGet cell "name")]
            else [])
        else [])
    else [])

/-- Embedding of `ExportTag.DomainFilter`: true exactly when some pair of
`data` also occurs in `labels`. -/
def ExportTag.DomainFilter (data labels : List Label) : Bool :=
  data.any (fun d => decide (d ∈ labels))

/-- Python's `s.strip()`: drop whitespace from both ends (char-list form,
so it reduces in the kernel). -/
def pyStrip (s : String) : String :=
  String.mk (((s.toList.dropWhile Char.isWhitespace).reverse.dropWhile
    Char.isWhitespace).reverse)

/-- Numeral value of a digit list (most significant first). -/
def digitsVal (cs : List Char) : Nat :=
  cs.foldl (fun acc c => 10 * acc + (c.toNat - 48)) 0

/-- Non-empty all-digit character list. -/
def isDigits (cs : List Char) : Bool :=
  !cs.isEmpty && cs.all (fun c => c.isDigit)

/-- Models Python's `int(s)` on plain decimal numerals (optional sign,
surrounding whitespace); `none` models the `ValueError` on anything else. -/
def pyInt (s : String) : Option Int :=
  match (pyStrip s).toList with
  | '-' :: rest => if isDigits rest then some (-(Int.ofNat (digitsVal rest))) else none
  | '+' :: rest => if isDigits rest then some (Int.ofNat (digitsVal rest)) else none
  | cs => if isDigits cs then some (Int.ofNat (digitsVal cs)) else none

/-- Magnitude part of a plain decimal float numeral: digits with an
optional single decimal point, at least one digit overall. -/
def pyFloatMag (cs : List Char) : Option ℚ :=
  let ip := cs.takeWhile (fun c => c ≠ '.')
  let rest := cs.dropWhile (fun c => c ≠ '.')
  match rest with
  | [] => if isDigits ip then some ((digitsVal ip : ℚ)) else none
  | _ :: fp =>
    if ip.all (fun c => c.isDigit) && fp.all (fun c => c.isDigit)
        && (!ip.isEmpty || !fp.isEmpty) then
      some ((digitsVal ip : ℚ) + (digitsVal fp : ℚ) / ((10 : ℚ) ^ fp.length))
    else none

/-- Models Python's `float(s)` on plain decimal numerals (optional sign,
optional decimal point, surrounding whitespace); `none` models the
`ValueError` on anything else. -/
def pyFloat (s : String) : Option ℚ :=
  match (pyStrip s).toList with
  | '-' :: rest => (pyFloatMag rest).map (fun q => -q)
  | '+' :: rest => pyFloatMag rest
  | cs => pyFloatMag cs

/-- The type coercion of the walker's value-node branch: boolean text
`true` (stripped) gives 1, other boolean text 0; float and integer text
parse as numerals.  `none` models the exception raised on missing text or
an unparsable numeral.  The catch-all branch is the source's `else`
(integer), reached only under the walker's membership check. -/
def coerce_value (type : Option String) (text : Option String) : Option ℚ :=
  match type with
  | some "boolean" => text.map (fun t => if pyStrip t = "true" then (1 : ℚ) else 0)
  | some "float" => text.bind pyFloat
  | _ => (text.bind pyInt).map (fun i => (i : ℚ))

/-- Embedding of `prometheus_client.core.GaugeMetricFamily` as far as the
exporter uses it: a name, the label-name schema fixed at construction, and
the list of added samples, each the label-value list and numeric value
passed to `add_metric`. -/
structure GaugeMetricFamily where
  name : String
  labelNames : List String
  samples : List (List (Option String) × ℚ)
deriving DecidableEq

/-- `add_metric(labels, value)`: append the sample; the library performs no
validation against the family's label-name schema. -/
def GaugeMetricFamily.add_metric (fam : GaugeMetricFamily)
    (values : List (Option String)) (v : ℚ) : GaugeMetricFamily :=
  { fam with samples := fam.samples ++ [(values, v)] }

/-- The `self._metrics` dict: insertion-ordered metric name → family. -/
abbrev Registry := List (String × GaugeMetricFamily)

/-- `metric_name in self._metrics`. -/
def registryHas (reg : Registry) (n : String) : Bool :=
  reg.any (fun p => p.1 = n)

/-- `self._metrics[k]` (lookup). -/
def registryGet (reg : Registry) (k : String) : Option GaugeMetricFamily :=
  (reg.find? (fun p => p.1 = k)).map (fun p => p.2)

/-- The source's registration step: create the family (with the label-name
schema taken from the current labels) only when the metric name is absent,
then `add_metric` the label values and value onto the stored family. -/
def registryAdd (reg : Registry) (metricName : String) (labelNames : List String)
    (values : List (Option String)) (v : ℚ) : Registry :=
  if registryHas reg metricName then
    reg.map (fun p => if p.1 = metricName then (p.1, p.2.add_metric values v) else p)
  else
    reg ++ [(metricName, GaugeMetricFamily.add_metric ⟨metricName, labelNames, []⟩ values v)]

/-- The `tag == 'metric'` branch of `DcacheCollector._collect_metric`:
look up the `type` and `name` attributes (a missing `name` raises, modelled
as `none`), apply the transform table, consult the category filter, and for
a supported scalar type coerce the leaf text, apply the scale and register
one observation under the current label set. -/
def DcacheCollector.metric_branch (exp : ExportTag) (data : List Label)
    (el : XmlNode) (labels : List Label) (reg : Registry) : Option Registry :=
  let type := attribGet el "type"
  (attribGet el "name").bind (fun rawName =>
    let nt := DcacheCollector.metric_transform rawName
    if exp.collect_metric data nt.1 labels then
      let metric_name := "dcache_" ++ exp.pfx ++ "_" ++ nt.1
      if type = some "float" ∨ type = some "integer" ∨ type = some "boolean" then
        (coerce_value type el.text).map (fun v =>
          registryAdd reg metric_name (labels.map (fun l => l.1))
            (labels.map (fun l => l.2)) (nt.2 v))
      else some reg
    else some reg)

/-- The `tag == 'poolref'` branch of `DcacheCollector._collect_metric`:
extend a copy of the labels with `("pool", name-attribute)` and register an
observation of 1 under `dcache_<pfx>_pool_rel`. -/
def DcacheCollector.poolref_branch (exp : ExportTag) (el : XmlNode)
    (labels : List Label) (reg : Registry) : Registry :=
  let metric_name := "dcache_" ++ exp.pfx ++ "_pool_rel"
  let labels2 := labels ++ [("pool", attribGet el "name")]
  registryAdd reg metric_name (labels2.map (fun l => l.1))
    (labels2.map (fun l => l.2)) 1

mutual

/-- Embedding of `DcacheCollector._collect_metric`: dispatch on the short
tag; a `metric` node records an observation, a `poolref` node records a
relation observation and does not recurse, every non-`poolref` node recurses
into its children with a copy of the labels extended by one
`("<tag>_<attrName>", value)` pair per attribute. -/
def DcacheCollector.collect_metric_node (exp : ExportTag) (data : List Label)
    (el : XmlNode) (labels : List Label) (reg : Registry) : Option Registry :=
  match el with
  | XmlNode.mk tag0 attrib text children =>
    let tag := get_short_tag tag0
    (if tag = "metric" then
        DcacheCollector.metric_branch exp data
          (XmlNode.mk tag0 attrib text children) labels reg
      else some reg).bind (fun reg1 =>
        if tag = "poolref" then
          some (DcacheCollector.poolref_branch exp
            (XmlNode.mk tag0 attrib text children) labels reg1)
        else
          DcacheCollector.collect_children exp data children
            (labels ++ attrib.map (fun p => (tag ++ "_" ++ p.1, some p.2))) reg1)
  termination_by structural el

/-- The walker's child loop: walk the children in order, threading the
registry; every child receives the same label list. -/
def DcacheCollector.collect_children (exp : ExportTag) (data : List Label)
    (els : List XmlNode) (labels : List Label) (reg : Registry) : Option Registry :=
  match els with
  | [] => some reg
  | c :: rest =>
    (DcacheCollector.collect_metric_node exp data c labels reg).bind
      (fun reg1 => DcacheCollector.collect_children exp data rest labels reg1)
  termination_by structural els

end

/-- Python's `name[:name.find('@')]` applied when `'@' in name`. -/
def strip_qualifier (n : String) : String :=
  if n.toList.contains '@' then String.mk (n.toList.takeWhile (fun c => c ≠ '@')) else n

/-- Embedding of `DcacheCollector._collect_metrics_set`: run the category's
init on the member, seed the two-element label set (cluster label plus the
identity label: raw `lgid` for a `linkgroup` member, otherwise the `name`
attribute with any `@`-qualifier stripped — a missing `name` raises), and
walk the member's children. -/
def DcacheCollector.collect_metrics_set (exp : ExportTag) (cluster : String)
    (element : XmlNode) (reg : Registry) : Option Registry :=
  let data := exp.collect_init element
  (if get_short_tag element.tag = "linkgroup" then
      some (attribGet element "lgid")
    else
      (attribGet element "name").map (fun n => some (strip_qualifier n))).bind
    (fun name =>
      let labels : List Label := [("dcache_cluster", some cluster), (exp.pfx, name)]
      DcacheCollector.collect_children exp data element.children labels reg)

/-- The member loop of `DcacheCollector._collect_all_metrics`: one
`_collect_metrics_set` call per member element, threading the registry. -/
def DcacheCollector.collect_members (exp : ExportTag) (cluster : String) :
    List XmlNode → Registry → Option Registry
  | [], reg => some reg
  | e :: rest, reg =>
    (DcacheCollector.collect_metrics_set exp cluster e reg).bind
      (fun reg1 => DcacheCollector.collect_members exp cluster rest reg1)

/-- One category of `DcacheCollector._collect_all_metrics`:
`findall('<ns><name>')` on the root returns the direct children with that
namespaced tag; when at least one matches, iterate the members of the
first. -/
def DcacheCollector.collect_category (cluster ns : String) (tree : XmlNode)
    (exp : ExportTag) (reg : Registry) : Option Registry :=
  match tree.children.filter (fun c => c.tag = ns ++ exp.name) with
  | [] => some reg
  | first :: _ => DcacheCollector.collect_members exp cluster first.children reg

/-- The category loop of `DcacheCollector._collect_all_metrics`. -/
def DcacheCollector.collect_categories (cluster ns : String) (tree : XmlNode) :
    List ExportTag → Registry → Option Registry
  | [], reg => some reg
  | e :: rest, reg =>
    (DcacheCollector.collect_category cluster ns tree e reg).bind
      (fun reg1 => DcacheCollector.collect_categories cluster ns tree rest reg1)

/-- The fixed `DcacheCollector.ExportTags` configuration list. -/
def DcacheCollector.ExportTags : List ExportTag :=
  [⟨"doors", "door", some false, DOOR_METRICS, [], none, none⟩,
   ⟨"domains", "domain", some false, DOMAIN_METRICS, [],
     some ExportTag.DomainInit, some ExportTag.DomainFilter⟩,
   ⟨"pools", "pool", some false, POOL_METRICS, [], none, none⟩,
   ⟨"poolgroups", "poolgroup", some false, POOLGROUP_METRICS, [], none, none⟩,
   ⟨"links", "link", some false, LINK_METRICS, [], none, none⟩,
   ⟨"linkgroups", "linkgroup", some false, LINKGROUP_METRICS, [], none, none⟩]

/-- Embedding of `DcacheCollector._collect_all_metrics`: start from an
empty registry and process every configured category. -/
def DcacheCollector.collect_all_metrics (cluster ns : String) (tree : XmlNode) :
    Option Registry :=
  DcacheCollector.collect_categories cluster ns tree DcacheCollector.ExportTags []

/-- Insert into a ≤-sorted string list (stable). -/
def insertSorted (k : String) : List String → List String
  | [] => [k]
  | a :: rest => if k ≤ a then k :: a :: rest else a :: insertSorted k rest

/-- Python's `sorted` on strings (insertion sort; the registry's keys are
distinct, so any correct sort produces the same list). -/
def sortStrings : List String → List String
  | [] => []
  | a :: rest => insertSorted a (sortStrings rest)

/-- Outcome of `DcacheCollector._get_xml_tree`: either the parsed snapshot
tree or a refused connection (`ConnectionRefusedError`). -/
inductive FetchResult where
  | refused
  | ok (tree : XmlNode)

/-- Embedding of `DcacheCollector.collect`: on a refused connection the
`except ConnectionRefusedError: pass` makes the generator yield nothing and
raise nothing (`some []`); otherwise take the root namespace, collect all
metrics and yield the families in ascending metric-name order.  A `none`
result models any other exception escaping to the caller. -/
def DcacheCollector.collect (cluster : String) : FetchResult → Option (List GaugeMetricFamily)
  | .refused => some []
  | .ok tree =>
    (get_namespace tree.tag).bind (fun ns =>
      (DcacheCollector.collect_all_metrics cluster ns tree).map (fun reg =>
        (sortStrings (reg.map (fun p => p.1))).filterMap (registryGet reg)))

/-- The XML namespace string `\x7bns\x7d` used by the concrete test trees. -/
def nsStr : String := String.mk [obChar] ++ "ns" ++ String.mk [cbChar]

/-- Concrete snapshot: a `pools` container with one member `pool1@qualifier`
holding one integer value node, field `used-bytes`, text `1024`. -/
def C1tree : XmlNode :=
  XmlNode.mk (nsStr ++ "dCache") [] none
    [XmlNode.mk (nsStr ++ "pools") [] none
      [XmlNode.mk (nsStr ++ "pool") [("name", "pool1@qualifier")] none
        [XmlNode.mk (nsStr ++ "metric") [("name", "used-bytes"), ("type", "integer")]
          (some "1024") []]]]

/-- Concrete snapshot in which the metric name `dcache_pool_used_bytes`
receives a second observation under a larger label set: the second
`used-bytes` value node sits below a `space` node carrying one attribute. -/
def C2tree : XmlNode :=
  XmlNode.mk (nsStr ++ "dCache") [] none
    [XmlNode.mk (nsStr ++ "pools") [] none
      [XmlNode.mk (nsStr ++ "pool") [("name", "pool1")] none
        [XmlNode.mk (nsStr ++ "metric") [("name", "used-bytes"), ("type", "integer")]
          (some "1") [],
         XmlNode.mk (nsStr ++ "space") [("unit", "b")] none
           [XmlNode.mk (nsStr ++ "metric") [("name", "used-bytes"), ("type", "integer")]
             (some "2") []]]]]

/-- The `domains` member used by the C7 scenario: its `routing/local/cellref`
subtree lists exactly the cell `cellA`, and two `cell` grouping nodes
(`cellA`, `cellB`) each hold a `thread-count` value node. -/
def C7domain : XmlNode :=
  XmlNode.mk (nsStr ++ "domain") [("name", "dom1")] none
    [XmlNode.mk (nsStr ++ "routing") [] none
      [XmlNode.mk (nsStr ++ "local") [] none
        [XmlNode.mk (nsStr ++ "cellref") [("name", "cellA")] none []]],
     XmlNode.mk (nsStr ++ "cells") [] none
      [XmlNode.mk (nsStr ++ "cell") [("name", "cellA")] none
        [XmlNode.mk (nsStr ++ "metric") [("name", "thread-count"), ("type", "integer")]
          (some "7") []],
       XmlNode.mk (nsStr ++ "cell") [("name", "cellB")] none
        [XmlNode.mk (nsStr ++ "metric") [("name", "thread-count"), ("type", "integer")]
          (some "9") []]]]

/-- Concrete snapshot for the domain-filter scenario. -/
def C7tree : XmlNode :=
  XmlNode.mk (nsStr ++ "dCache") [] none
    [XmlNode.mk (nsStr ++ "domains") [] none [C7domain]]

/-- The `pools` entry of `ExportTags`, used by concrete witnesses. -/
def poolsTag : ExportTag :=
  ⟨"pools", "pool", some false, POOL_METRICS, [], none, none⟩

/-- The `domains` entry of `ExportTags`, used by concrete witnesses. -/
def domainsTag : ExportTag :=
  ⟨"domains", "domain", some false, DOMAIN_METRICS, [],
    some ExportTag.DomainInit, some ExportTag.DomainFilter⟩

/-- C1: For a snapshot whose `pools` container holds one member
`pool1@qualifier` containing an integer value node with field name
`used-bytes` and leaf text `1024`, one collection pass emits exactly one
family, `dcache_pool_used_bytes`, whose single observation carries exactly
the labels `dcache_cluster = <configured cluster>` and `pool = "pool1"`
(the `@`-qualifier stripped) and value 1024. -/
theorem C1_end_to_end_pool_used_bytes (cluster : String) :
    DcacheCollector.collect cluster (FetchResult.ok C1tree) =
      some [⟨"dcache_pool_used_bytes", ["dcache_cluster", "pool"],
        [([some cluster, some "pool1"], 1024)]⟩] := by
  rfl

/-- C2 (counterexample): on this snapshot the metric name
`dcache_pool_used_bytes` receives a second observation carrying three label
values, while the family's label-name schema was fixed at two names; the
pass neither rejects the observation nor aborts — the mismatched sample is
silently recorded in the emitted family. -/
theorem C2_counterexample :
    DcacheCollector.collect "c" (FetchResult.ok C2tree) =
      some [⟨"dcache_pool_used_bytes", ["dcache_cluster", "pool"],
        [([some "c", some "pool1"], 1),
         ([some "c", some "pool1", some "b"], 2)]⟩] := by
  decide

/-- C3: when the snapshot fetch fails with a connection refusal, `collect`
yields zero metric families and no exception escapes to its caller. -/
theorem C3_connection_refused (cluster : String) :
    DcacheCollector.collect cluster FetchResult.refused = some [] := by
  rfl

/-- C7: for the domains category, init collects the cell names under
`routing/local/cellref` as `("cell_name", name)` pairs; a field passing the
name-based include test is then emitted only at observation points whose
label set contains one of those pairs — here emitted under
`cell_name=cellA` (value 7) and suppressed under `cell_name=cellB`. -/
theorem C7_domain_cell_filter (cluster : String) :
    ExportTag.DomainInit C7domain = [("cell_name", some "cellA")] ∧
    DcacheCollector.collect cluster (FetchResult.ok C7tree) =
      some [⟨"dcache_domain_thread_count", ["dcache_cluster", "domain", "cell_name"],
        [([some cluster, some "dom1", some "cellA"], 7)]⟩] := by
  exact ⟨rfl, rfl⟩

/-- Looking up `mn` after updating the family stored under `mn` applies the
update to the lookup result. -/
theorem registryGet_update (reg : Registry) (mn : String)
    (g : GaugeMetricFamily → GaugeMetricFamily) :
    registryGet (reg.map (fun p => if p.1 = mn then (p.1, g p.2) else p)) mn
      = (registryGet reg mn).map g := by
  induction reg with
  | nil => rfl
  | cons p rest ih =>
    by_cases h : p.1 = mn
    · simp [registryGet, List.find?, h]
    · simpa [registryGet, List.find?, h] using ih

/-- C2 (amended): when an observation arrives for a metric name that is
already registered, the code silently appends the sample to the existing
family — the result does not depend on the label-name list accompanying the
new observation, the family's label-name schema stays as fixed at creation,
and no rejection or abort occurs. -/
theorem C2_silent_append (reg : Registry) (mn : String) (names1 names2 : List String)
    (values : List (Option String)) (v : ℚ) (h : registryHas reg mn = true) :
    registryAdd reg mn names1 values v = registryAdd reg mn names2 values v ∧
    (registryGet (registryAdd reg mn names1 values v) mn).map
        (fun f => f.labelNames) = (registryGet reg mn).map (fun f => f.labelNames) ∧
    (registryGet (registryAdd reg mn names1 values v) mn).map
        (fun f => f.samples)
      = (registryGet reg mn).map (fun f => f.samples ++ [(values, v)]) := by
  refine ⟨by simp [registryAdd, h], ?_, ?_⟩
  · rw [registryAdd, if_pos h,
      registryGet_update reg mn (fun f => f.add_metric values v)]
    cases registryGet reg mn <;> simp [GaugeMetricFamily.add_metric]
  · rw [registryAdd, if_pos h,
      registryGet_update reg mn (fun f => f.add_metric values v)]
    cases registryGet reg mn <;> simp [GaugeMetricFamily.add_metric]

/-- Witness for `C2_silent_append` at a concrete registry already holding
the metric name. -/
theorem C2_silent_append_witness :
    registryHas [("m", ⟨"m", ["a", "b"], [([some "x", some "y"], 1)]⟩)] "m" = true ∧
    registryAdd [("m", ⟨"m", ["a", "b"], [([some "x", some "y"], (1 : ℚ))]⟩)] "m"
        ["a", "b", "c"] [some "x", some "y", some "z"] 2
      = registryAdd [("m", ⟨"m", ["a", "b"], [([some "x", some "y"], (1 : ℚ))]⟩)] "m"
        ["other"] [some "x", some "y", some "z"] 2 := by
  exact ⟨by decide,
    (C2_silent_append [("m", ⟨"m", ["a", "b"], [([some "x", some "y"], 1)]⟩)] "m"
      ["a", "b", "c"] ["other"] [some "x", some "y", some "z"] 2 (by decide)).1⟩

/-- C4: `_metric_transform` is total over strings and applies its rules in
order: a raw name in the statically derived byte-valued set maps to
`name + "_bytes"` with identity scaling; the raw name `last-heartbeat` maps
to `heartbeat_seconds` with division by 1000; every other string maps to
itself with `-` replaced by `_` and identity scaling. -/
theorem C4_metric_transform_rules (name : String) (x : ℚ) :
    (name ∈ BYTES_METRICS →
      (DcacheCollector.metric_transform name).1 = name ++ "_bytes" ∧
      (DcacheCollector.metric_transform name).2 x = x) ∧
    ((DcacheCollector.metric_transform "last-heartbeat").1 = "heartbeat_seconds" ∧
      (DcacheCollector.metric_transform "last-heartbeat").2 x = x / 1000) ∧
    (name ∉ BYTES_METRICS → name ≠ "last-heartbeat" →
      (DcacheCollector.metric_transform name).1 = dash_to_underscore name ∧
      (DcacheCollector.metric_transform name).2 x = x) := by
  have hlh : "last-heartbeat" ∉ BYTES_METRICS := by decide
  refine ⟨fun h => ?_, ?_, fun h h2 => ?_⟩
  · simp [DcacheCollector.metric_transform, h]
  · simp [DcacheCollector.metric_transform, hlh]
  · simp [DcacheCollector.metric_transform, h, h2]

/-- Witness for `C4_metric_transform_rules`: the byte-valued raw name
`used`, the heartbeat name, and the plain name `read-only`. -/
theorem C4_metric_transform_rules_witness :
    "used" ∈ BYTES_METRICS ∧
    DcacheCollector.metric_transform "used" = ("used_bytes", fun x => x) ∧
    (DcacheCollector.metric_transform "last-heartbeat").1 = "heartbeat_seconds" ∧
    (DcacheCollector.metric_transform "last-heartbeat").2 4000 = 4 ∧
    (DcacheCollector.metric_transform "read-only").1 = "read_only" := by
  have hu := (C4_metric_transform_rules "used" 0).1 (by decide)
  have hh := (C4_metric_transform_rules "last-heartbeat" 4000).2.1
  have hr := ((C4_metric_transform_rules "read-only" 0).2.2 (by decide) (by decide)).1
  refine ⟨by decide, ?_, hh.1, by rw [hh.2]; norm_num, by rw [hr]; decide⟩
  have : (DcacheCollector.metric_transform "used").1 = "used_bytes" := hu.1
  have h2 : (DcacheCollector.metric_transform "used").2 = fun x => x := by
    funext y
    exact ((C4_metric_transform_rules "used" y).1 (by decide)).2
  exact Prod.ext this h2

/-- C5: the numeric value recorded for an emitted value node is exactly the
transform's scale applied to the type coercion of the leaf text; boolean
text `true` (stripped) coerces to 1 and any other boolean text to 0; the
heartbeat field's value is divided by 1000 and byte-valued fields pass
through unscaled. -/
theorem C5_value_composition (exp : ExportTag) (data : List Label) (tag0 : String)
    (attrib : List (String × String)) (text : Option String) (labels : List Label)
    (reg : Registry) (nm ty : String) (v : ℚ) (t : String)
    (hn : attribGetA attrib "name" = some nm)
    (hty : attribGetA attrib "type" = some ty)
    (hmem : ty = "float" ∨ ty = "integer" ∨ ty = "boolean")
    (hemit : exp.collect_metric data (DcacheCollector.metric_transform nm).1 labels = true)
    (hco : coerce_value (some ty) text = some v) :
    DcacheCollector.metric_branch exp data (XmlNode.mk tag0 attrib text []) labels reg
      = some (registryAdd reg
          ("dcache_" ++ exp.pfx ++ "_" ++ (DcacheCollector.metric_transform nm).1)
          (labels.map (fun l => l.1)) (labels.map (fun l => l.2))
          ((DcacheCollector.metric_transform nm).2 v)) ∧
    coerce_value (some "boolean") (some "true") = some 1 ∧
    (pyStrip t ≠ "true" → coerce_value (some "boolean") (some t) = some 0) ∧
    (nm = "last-heartbeat" → (DcacheCollector.metric_transform nm).2 v = v / 1000) ∧
    (nm ∈ BYTES_METRICS → (DcacheCollector.metric_transform nm).2 v = v) := by
  have hlh : "last-heartbeat" ∉ BYTES_METRICS := by decide
  refine ⟨?_, by decide, fun ht => ?_, fun h => ?_, fun h => ?_⟩
  · rcases hmem with h | h | h <;> subst h <;>
      simp [DcacheCollector.metric_branch, attribGet, XmlNode.attrib, XmlNode.text,
        hn, hty, hemit, hco]
  · simp [coerce_value, ht]
  · subst h; simp [DcacheCollector.metric_transform, hlh]
  · simp [DcacheCollector.metric_transform, h]

/-- Witness for `C5_value_composition`: the pool heartbeat field with raw
integer text `5000`, recorded as 5 after the division by 1000. -/
theorem C5_value_composition_witness :
    DcacheCollector.metric_branch poolsTag []
        (XmlNode.mk (nsStr ++ "metric")
          [("name", "last-heartbeat"), ("type", "integer")] (some "5000") [])
        [("dcache_cluster", some "c"), ("pool", some "p")] []
      = some [("dcache_pool_heartbeat_seconds",
          ⟨"dcache_pool_heartbeat_seconds", ["dcache_cluster", "pool"],
            [([some "c", some "p"], 5)]⟩)] := by
  have h := (C5_value_composition poolsTag [] (nsStr ++ "metric")
    [("name", "last-heartbeat"), ("type", "integer")] (some "5000")
    [("dcache_cluster", some "c"), ("pool", some "p")] []
    "last-heartbeat" "integer" 5000 "x"
    (by decide) (by decide) (Or.inr (Or.inl rfl)) (by decide) (by decide)).1
  rw [h]
  have hlh : "last-heartbeat" ∉ BYTES_METRICS := by decide
  simp [DcacheCollector.metric_transform, hlh, registryAdd, registryHas,
    GaugeMetricFamily.add_metric, poolsTag]
  norm_num

/-- C6: the category filter's staged rule: a `none` default always emits;
otherwise include beats exclude beats default for the tentative answer; a
tentatively false answer is final (the filter function is never consulted);
a tentatively true answer with the configured filter function is true
exactly when some pair of the category's `data` also appears in the current
label set. -/
theorem C6_filter_staged (e : ExportTag) (data : List Label) (nm : String)
    (labels : List Label) :
    (e.default = none → e.collect_metric data nm labels = true) ∧
    (∀ d : Bool, e.default = some d →
      ((if nm ∈ e.incl then true else if nm ∈ e.excl then false else d) = false →
        e.collect_metric data nm labels = false) ∧
      ((if nm ∈ e.incl then true else if nm ∈ e.excl then false else d) = true →
        e.filter_func = none → e.collect_metric data nm labels = true) ∧
      ((if nm ∈ e.incl then true else if nm ∈ e.excl then false else d) = true →
        e.filter_func = some ExportTag.DomainFilter →
        (e.collect_metric data nm labels = true ↔ ∃ p ∈ data, p ∈ labels))) := by
  constructor
  · intro h
    simp [ExportTag.collect_metric, h]
  · intro d hd
    have hu : e.collect_metric data nm labels =
        (match e.filter_func with
         | some f =>
           if (if nm ∈ e.incl then true else if nm ∈ e.excl then false else d)
             then f data labels
             else (if nm ∈ e.incl then true else if nm ∈ e.excl then false else d)
         | none => (if nm ∈ e.incl then true else if nm ∈ e.excl then false else d)) := by
      simp only [ExportTag.collect_metric, hd]
    refine ⟨fun hok => ?_, fun hok hf => ?_, fun hok hf => ?_⟩
    · rw [hu, hok]
      cases e.filter_func <;> simp
    · rw [hu, hok, hf]
    · rw [hu, hok, hf]
      simp [ExportTag.DomainFilter, List.any_eq_true]

/-- Witness for `C6_filter_staged`: the domains category with collected cell
`("cell_name", "a")`: the included field `thread_count` is emitted when the
label set contains the pair. -/
theorem C6_filter_staged_witness :
    domainsTag.collect_metric [("cell_name", some "a")] "thread_count"
      [("dcache_cluster", some "c"), ("cell_name", some "a")] = true := by
  have h := ((C6_filter_staged domainsTag [("cell_name", some "a")] "thread_count"
    [("dcache_cluster", some "c"), ("cell_name", some "a")]).2 false rfl).2.2
    (by decide) rfl
  exact h.mpr ⟨("cell_name", some "a"), by decide, by decide⟩

/-- C8: a `poolref` node reached with label set `L` and referenced pool
name `P` records exactly one observation of value 1 under
`dcache_<pfx>_pool_rel` with labels `L` plus the single extra pair
`("pool", P)`, and the walker does not recurse into the node's children
(the result is independent of them). -/
theorem C8_poolref_relation (exp : ExportTag) (data : List Label) (tag0 : String)
    (attrib : List (String × String)) (text : Option String)
    (children : List XmlNode) (labels : List Label) (reg : Registry)
    (h : get_short_tag tag0 = "poolref") :
    DcacheCollector.collect_metric_node exp data
        (XmlNode.mk tag0 attrib text children) labels reg
      = some (registryAdd reg ("dcache_" ++ exp.pfx ++ "_pool_rel")
          ((labels ++ [("pool", attribGetA attrib "name")]).map (fun l => l.1))
          ((labels ++ [("pool", attribGetA attrib "name")]).map (fun l => l.2)) 1) := by
  rw [DcacheCollector.collect_metric_node]
  simp [h, DcacheCollector.poolref_branch, attribGet, XmlNode.attrib]

/-- Witness for `C8_poolref_relation`: a concrete `poolref` node under a
link member. -/
theorem C8_poolref_relation_witness :
    DcacheCollector.collect_metric_node
        ⟨"links", "link", some false, LINK_METRICS, [], none, none⟩ []
        (XmlNode.mk (nsStr ++ "poolref") [("name", "p1")] none
          [XmlNode.mk (nsStr ++ "junk") [] none []])
        [("dcache_cluster", some "c"), ("link", some "l1")] []
      = some [("dcache_link_pool_rel",
          ⟨"dcache_link_pool_rel", ["dcache_cluster", "link", "pool"],
            [([some "c", some "l1", some "p1"], 1)]⟩)] := by
  have h := C8_poolref_relation
    ⟨"links", "link", some false, LINK_METRICS, [], none, none⟩ []
    (nsStr ++ "poolref") [("name", "p1")] none
    [XmlNode.mk (nsStr ++ "junk") [] none []]
    [("dcache_cluster", some "c"), ("link", some "l1")] [] (by decide)
  rw [h]
  decide

/-- C9: the walk never leaks labels between sibling subtrees: walking a
concatenation of children is the sequential composition in which the second
block receives the same label list as the first (only the registry is
threaded), and every non-`metric`, non-`poolref` node passes each child the
caller's labels extended only by the node's own attribute-derived labels. -/
theorem C9_label_frame :
    (∀ (exp : ExportTag) (data : List Label) (cs1 cs2 : List XmlNode)
        (labels : List Label) (reg : Registry),
      DcacheCollector.collect_children exp data (cs1 ++ cs2) labels reg
        = (DcacheCollector.collect_children exp data cs1 labels reg).bind
            (fun r => DcacheCollector.collect_children exp data cs2 labels r)) ∧
    (∀ (exp : ExportTag) (data : List Label) (tag0 : String)
        (attrib : List (String × String)) (text : Option String)
        (children : List XmlNode) (labels : List Label) (reg : Registry),
      get_short_tag tag0 ≠ "metric" → get_short_tag tag0 ≠ "poolref" →
      DcacheCollector.collect_metric_node exp data
          (XmlNode.mk tag0 attrib text children) labels reg
        = DcacheCollector.collect_children exp data children
            (labels ++ attrib.map
              (fun p => (get_short_tag tag0 ++ "_" ++ p.1, some p.2))) reg) := by
  constructor
  · intro exp data cs1 cs2 labels reg
    induction cs1 generalizing reg with
    | nil => simp [DcacheCollector.collect_children]
    | cons c rest ih =>
      rw [List.cons_append, DcacheCollector.collect_children,
        DcacheCollector.collect_children]
      cases DcacheCollector.collect_metric_node exp data c labels reg with
      | none => simp
      | some r1 => simpa using ih r1
  · intro exp data tag0 attrib text children labels reg h1 h2
    rw [DcacheCollector.collect_metric_node]
    simp [h1, h2]

/-- Witness for `C9_label_frame`: concrete sibling split and a concrete
structural node with one attribute. -/
theorem C9_label_frame_witness :
    DcacheCollector.collect_children poolsTag []
        ([XmlNode.mk (nsStr ++ "a") [("x", "1")] none []]
          ++ [XmlNode.mk (nsStr ++ "b") [] none []])
        [("dcache_cluster", some "c")] []
      = (DcacheCollector.collect_children poolsTag []
          [XmlNode.mk (nsStr ++ "a") [("x", "1")] none []]
          [("dcache_cluster", some "c")] []).bind
          (fun r => DcacheCollector.collect_children poolsTag []
            [XmlNode.mk (nsStr ++ "b") [] none []]
            [("dcache_cluster", some "c")] r) ∧
    DcacheCollector.collect_metric_node poolsTag []
        (XmlNode.mk (nsStr ++ "space") [("unit", "b")] none
          [XmlNode.mk (nsStr ++ "inner") [] none []])
        [("dcache_cluster", some "c")] []
      = DcacheCollector.collect_children poolsTag []
          [XmlNode.mk (nsStr ++ "inner") [] none []]
          ([("dcache_cluster", some "c")]
            ++ [("x", "1"), ("y", "2")].map
              (fun p => ("space" ++ "_" ++ p.1, some p.2))) [] := by
  constructor
  · exact (C9_label_frame.1 poolsTag []
      [XmlNode.mk (nsStr ++ "a") [("x", "1")] none []]
      [XmlNode.mk (nsStr ++ "b") [] none []]
      [("dcache_cluster", some "c")] [])
  · have h := C9_label_frame.2 poolsTag [] (nsStr ++ "space") [("unit", "b")] none
      [XmlNode.mk (nsStr ++ "inner") [] none []]
      [("dcache_cluster", some "c")] [] (by decide) (by decide)
    rw [h]
    decide

/-- C10: a node whose short tag is `metric` does not stop at the
observation-recording branch: the walker additionally recurses into each
child with the label set extended by a `("metric_<attrName>", value)` pair
for every attribute the node carries. -/
theorem C10_metric_node_recurses (exp : ExportTag) (data : List Label)
    (tag0 : String) (attrib : List (String × String)) (text : Option String)
    (children : List XmlNode) (labels : List Label) (reg : Registry)
    (h : get_short_tag tag0 = "metric") :
    DcacheCollector.collect_metric_node exp data
        (XmlNode.mk tag0 attrib text children) labels reg
      = (DcacheCollector.metric_branch exp data
          (XmlNode.mk tag0 attrib text children) labels reg).bind
          (fun r => DcacheCollector.collect_children exp data children
            (labels ++ attrib.map (fun p => ("metric_" ++ p.1, some p.2))) r) := by
  rw [DcacheCollector.collect_metric_node]
  simp [h]

/-- Witness for `C10_metric_node_recurses`: a concrete metric node with one
attribute and one child. -/
theorem C10_metric_node_recurses_witness :
    DcacheCollector.collect_metric_node poolsTag []
        (XmlNode.mk (nsStr ++ "metric") [("name", "used-bytes"), ("type", "integer")]
          (some "3")
          [XmlNode.mk (nsStr ++ "inner") [] none []])
        [("dcache_cluster", some "c")] []
      = (DcacheCollector.metric_branch poolsTag []
          (XmlNode.mk (nsStr ++ "metric") [("name", "used-bytes"), ("type", "integer")]
            (some "3")
            [XmlNode.mk (nsStr ++ "inner") [] none []])
          [("dcache_cluster", some "c")] []).bind
          (fun r => DcacheCollector.collect_children poolsTag []
            [XmlNode.mk (nsStr ++ "inner") [] none []]
            ([("dcache_cluster", some "c")]
              ++ [("name", "used-bytes"), ("type", "integer")].map
                (fun p => ("metric_" ++ p.1, some p.2))) r) := by
  exact C10_metric_node_recurses poolsTag [] (nsStr ++ "metric")
    [("name", "used-bytes"), ("type", "integer")] (some "3")
    [XmlNode.mk (nsStr ++ "inner") [] none []]
    [("dcache_cluster", some "c")] [] (by decide)
